import Mathlib

/-!
Verification of the `fixmydocs` worker pipeline (job execution core).

Shallow embedding of the Python sources under `worker/`:
`job_manager.py` (JobState transitions), `worker.py` (the orchestrator task
`process_documentation_job`), `repo_manager.py` (clone and temp-dir cleanup),
`parser.py` (structure analysis), `patcher.py` (patch/PR publication and the
GitHub API retry loop), and the token-embedding logic shared by
`repo_manager.py` / `auth_providers.py`.

Conventions used throughout:
* Machine state that Python mutates (the persisted `jobs` row, the git working
  tree, the filesystem) is passed explicitly and returned.
* A Python function that catches every exception and returns a value is
  embedded as a total Lean function; a Python call that raises is embedded in
  `Except String`.
* External effects (the git subprocess, the HTTP client, `random.uniform`) are
  parameters of the embedding: the caller supplies the outcome the external
  world would produce, and the embedding reproduces the control flow of the
  source around it.
-/

namespace FixMyDocs

/-! ## JobState: the persisted `jobs` row and `JobManager` (job_manager.py) -/

/-- The persisted fields of a `jobs` row that the `JobManager` transition
operations read or write (worker.py:281-299: `status`, `error_message`,
`progress`, `retry_count`; timestamps are omitted as no claim mentions them).
`errorMessage = none` models the SQL `NULL` of the nullable `error_message`
column. -/
structure JobRec where
  status : String
  errorMessage : Option String
  progress : Int
  retryCount : Nat
  deriving Repr, DecidableEq

/-- A freshly created job as the backend inserts it (worker.py:291-297:
`status` defaults to "pending", `progress` to 0, `retry_count` to 0,
`error_message` is NULL). -/
def initialJob : JobRec :=
  { status := "pending", errorMessage := none, progress := 0, retryCount := 0 }

/-- Embedding of `JobManager.start_job` (job_manager.py:33-49).  Sets `status = "running"`
and commits; there is no check of the current status.  `commitOk` is the
outcome of `db.commit()`: on failure the session is rolled back and the
persisted row is unchanged, returning `False`. -/
def startJob (commitOk : Bool) (j : JobRec) : Bool × JobRec :=
  if commitOk then (true, { j with status := "running" }) else (false, j)

/-- Embedding of `JobManager.complete_job` (job_manager.py:51-67).  Sets
`status = "completed"` unconditionally, commit-or-rollback as in `startJob`. -/
def completeJob (commitOk : Bool) (j : JobRec) : Bool × JobRec :=
  if commitOk then (true, { j with status := "completed" }) else (false, j)

/-- Embedding of `JobManager.fail_job` (job_manager.py:69-89).  Sets `status = "failed"`
and stores the given message, commit-or-rollback. -/
def failJob (msg : String) (commitOk : Bool) (j : JobRec) : Bool × JobRec :=
  if commitOk then (true, { j with status := "failed", errorMessage := some msg })
  else (false, j)

/-- Embedding of `JobManager.update_progress` (job_manager.py:91-111).  With `progress=None`
it returns `True` without touching the session; otherwise it stores the value
and commits. -/
def updateProgress (p : Option Int) (commitOk : Bool) (j : JobRec) : Bool × JobRec :=
  match p with
  | none => (true, j)
  | some v => if commitOk then (true, { j with progress := v }) else (false, j)

/-- Embedding of `JobManager.cancel_job` (job_manager.py:131-153).  Guard: only when the
current status is not in `["completed", "failed"]`; otherwise returns `False`
without touching the row. -/
def cancelJob (commitOk : Bool) (j : JobRec) : Bool × JobRec :=
  if j.status != "completed" && j.status != "failed" then
    if commitOk then (true, { j with status := "canceled" }) else (false, j)
  else (false, j)

/-- Embedding of `JobManager.retry_job` (job_manager.py:155-178).  Guard: only from
`"failed"`; resets the status to `"pending"` and increments `retry_count`.
Note that `error_message` is NOT cleared. -/
def retryJob (commitOk : Bool) (j : JobRec) : Bool × JobRec :=
  if j.status == "failed" then
    if commitOk then
      (true, { j with status := "pending", retryCount := j.retryCount + 1 })
    else (false, j)
  else (false, j)

/-- One invocation of a `JobManager` transition operation, together with the
outcome its `db.commit()` would have (and, for `fail`, the message argument;
for `progress`, the progress argument). -/
inductive JMOp where
  | start (commitOk : Bool)
  | complete (commitOk : Bool)
  | fail (msg : String) (commitOk : Bool)
  | progress (p : Option Int) (commitOk : Bool)
  | cancel (commitOk : Bool)
  | retry (commitOk : Bool)
  deriving Repr, DecidableEq

/-- Dispatch of one operation on the persisted row: the returned `Bool` is the
Python return value, the returned `JobRec` the persisted row afterwards. -/
def applyOp : JMOp → JobRec → Bool × JobRec
  | .start ok, j => startJob ok j
  | .complete ok, j => completeJob ok j
  | .fail msg ok, j => failJob msg ok j
  | .progress p ok, j => updateProgress p ok j
  | .cancel ok, j => cancelJob ok j
  | .retry ok, j => retryJob ok j

/-- Run a sequence of transition operations, keeping only the persisted row. -/
def runOps (ops : List JMOp) (j : JobRec) : JobRec :=
  ops.foldl (fun s op => (applyOp op s).2) j

/-- Whether the stored `error_message` is a non-empty text. -/
def errNonEmpty (j : JobRec) : Bool :=
  match j.errorMessage with
  | none => false
  | some m => m != ""

/-- Whether an operation, applied to row `j`, reaches `db.commit()` in the
source: `update_progress(None)` returns before committing, and the guarded
operations `cancel_job` / `retry_job` return `False` before committing when
their status guard fails. -/
def opCommits : JMOp → JobRec → Bool
  | .start _, _ => true
  | .complete _, _ => true
  | .fail _ _, _ => true
  | .progress p _, _ => p.isSome
  | .cancel _, j => j.status != "completed" && j.status != "failed"
  | .retry _, j => j.status == "failed"

/-- The `commitOk` outcome an operation was invoked with. -/
def opCommitOk : JMOp → Bool
  | .start ok => ok
  | .complete ok => ok
  | .fail _ ok => ok
  | .progress _ ok => ok
  | .cancel ok => ok
  | .retry ok => ok

/-- The message argument of a `fail` operation is a non-empty string (true of
every other operation). -/
def failMsgOk : JMOp → Prop
  | .fail msg _ => msg ≠ ""
  | _ => True

/-- One direction of the spec invariant of §3: a failed row carries a
non-empty error message. -/
def failedImpliesMsg (j : JobRec) : Prop :=
  j.status = "failed" → errNonEmpty j = true

/-! ## SourceFetcher: `RepoManager._clone_with_subprocess` (repo_manager.py) -/

/-- Outcome of the `git clone` subprocess invocation inside
`RepoManager._clone_with_subprocess` (repo_manager.py:188-216), supplied by
the environment.  The `dirLeft` flag records whether the git process had
created (part of) the destination directory at the moment the outcome arose.
`otherExc` is any exception other than `subprocess.TimeoutExpired` escaping
`subprocess.run` (e.g. a decode error while capturing output). -/
inductive CloneOutcome where
  | success
  | exitNonZero (dirLeft : Bool)
  | timeout (dirLeft : Bool)
  | otherExc (dirLeft : Bool)
  deriving Repr, DecidableEq

/-- Embedding of `RepoManager._clone_with_subprocess` (repo_manager.py:157-216), reduced to
what the claims observe: the returned `bool` and whether the destination
directory exists after the call.
* exit code 0: returns `True`, directory present (repo_manager.py:197-199);
* nonzero exit: removes the directory if present, returns `False`
  (repo_manager.py:200-206);
* `TimeoutExpired`: removes the directory if present, returns `False`
  (repo_manager.py:208-213);
* any other exception: the final `except Exception` handler logs and returns
  `False` WITHOUT removing the directory (repo_manager.py:214-216). -/
def cloneWithSubprocess (o : CloneOutcome) : Bool × Bool :=
  match o with
  | .success => (true, true)
  | .exitNonZero _ => (false, false)
  | .timeout _ => (false, false)
  | .otherExc d => (false, d)

/-! ## PipelineOrchestrator: `process_documentation_job` (worker.py)

The orchestrator task constructs its collaborators with argument lists the
collaborators do not accept: `JobManager(session, job, job_id)` against
`JobManager.__init__(self, db_session, job)` (worker.py:379,390,421,432 vs
job_manager.py:21), `RepoManager(auth_provider=...)` against
`RepoManager.__init__(self, config=None)` (worker.py:383 vs
repo_manager.py:34), and `AIOrchestrator(provider=..., model_name=...)`
against `AIOrchestrator.__init__(self)` (worker.py:403 vs
ai_orchestrator.py:20).  Python raises `TypeError` on such calls; the
embedding models each constructor as a function of the argument list the
caller supplies, checking it against the signature in the defining module. -/

/-- Kind of a positional argument at a Python call site (only the count
matters for arity checking). -/
inductive PyArg where
  | session
  | job
  | intArg
  deriving Repr, DecidableEq

/-- Embedding of `JobManager(...)` called with `args` positional arguments, checked against
`JobManager.__init__(self, db_session, job)` (job_manager.py:21): exactly two
positional arguments are accepted. -/
def jobManagerNew (args : List PyArg) : Except String Unit :=
  if args.length = 2 then .ok ()
  else .error "TypeError: JobManager.__init__ takes 3 positional arguments but 4 were given"

/-- Embedding of `RepoManager(...)` called with the given keyword arguments, checked
against `RepoManager.__init__(self, config=None)` (repo_manager.py:34): the
only accepted keyword is `config`. -/
def repoManagerNew (kwargs : List String) : Except String Unit :=
  if kwargs.all (fun k => k == "config") then .ok ()
  else .error "TypeError: RepoManager.__init__ got an unexpected keyword argument auth_provider"

/-- Embedding of `AIOrchestrator(...)` called with the given keyword arguments, checked
against `AIOrchestrator.__init__(self)` (ai_orchestrator.py:20): no keyword
is accepted. -/
def aiOrchestratorNew (kwargs : List String) : Except String Unit :=
  if kwargs.isEmpty then .ok ()
  else .error "TypeError: AIOrchestrator.__init__ got an unexpected keyword argument provider"

/-- Embedding of `AIOrchestrator.generate_documentation` (ai_orchestrator.py:29-57): a
`try`/`except Exception` body that returns a `bool` and never raises; the
environment supplies the outcome it reports. -/
def generateDocumentation (genOk : Bool) : Bool := genOk

/-- Environment of one orchestrator run: the outcomes the external operations
of phases 3 and 4 would produce if reached. -/
structure WorkerEnv where
  clone : CloneOutcome
  genOk : Bool
  patchOk : Bool
  deriving Repr, DecidableEq

/-- Observable result of one `process_documentation_job` run: whether the
Celery task returned normally or an exception escaped it, the persisted job
row afterwards, and whether a clone directory exists afterwards. -/
structure WorkerRun where
  result : Except String Unit
  finalJob : Option JobRec
  dirExists : Bool
  deriving Repr

/-- The outer `except Exception` handler (worker.py:424-433):
when a job id was resolved it re-queries the row and constructs
`JobManager(session, job_to_fail, job_id_for_error)` (worker.py:432) — three
positional arguments — to call `fail_job`.  The constructor raises
`TypeError`, which escapes the handler and the task; the row is unchanged. -/
def outerHandler (j : JobRec) (dir : Bool) (e : String) : WorkerRun :=
  match jobManagerNew [PyArg.session, PyArg.job, PyArg.intArg] with
  | .ok _ => { result := .ok (), finalJob := some (failJob ("Unexpected error: " ++ e) true j).2, dirExists := dir }
  | .error e2 => { result := .error e2, finalJob := some j, dirExists := dir }

/-- Phases 3 and 4 of the task (worker.py:382-422), entered with the row in
state `j1`: clone, then — on success — construct the phase-4 collaborators
(`AIOrchestrator(provider=..., model_name=...)` raises `TypeError`), run
analysis, generation (its boolean result is DISCARDED, worker.py:412), patch
creation (result also discarded, worker.py:415) and `complete_job`; on clone
failure construct `JobManager(session, job_to_fail, job_id_for_error)`
(worker.py:390) to call `fail_job("Repository cloning failed")`. -/
def afterStart (j1 : JobRec) (env : WorkerEnv) : WorkerRun :=
  let c := cloneWithSubprocess env.clone
  if c.1 then
    match aiOrchestratorNew ["provider", "model_name"] with
    | .ok _ =>
      let _gen := generateDocumentation env.genOk
      let _patch := env.patchOk
      match jobManagerNew [PyArg.session, PyArg.job, PyArg.intArg] with
      | .ok _ => { result := .ok (), finalJob := some (completeJob true j1).2, dirExists := c.2 }
      | .error e => outerHandler j1 c.2 e
    | .error e => outerHandler j1 c.2 e
  else
    match jobManagerNew [PyArg.session, PyArg.job, PyArg.intArg] with
    | .ok _ => { result := .ok (), finalJob := some (failJob "Repository cloning failed" true j1).2, dirExists := c.2 }
    | .error e => outerHandler j1 c.2 e

/-- Embedding of `process_documentation_job` (worker.py:336-433).  `db` is the `jobs` row
for the requested id (`none`: the phase-1 query finds nothing and the task
returns, worker.py:361-364).  Phase 2 constructs
`JobManager(session, job_to_start, job_id_for_error)` (worker.py:379) — three
positional arguments against a two-argument `__init__` — before calling
`start_job`, so the `TypeError` is raised before any transition is committed
and lands in the outer handler. -/
def processDocumentationJob (db : Option JobRec) (env : WorkerEnv) : WorkerRun :=
  match db with
  | none => { result := .ok (), finalJob := none, dirExists := false }
  | some j =>
    match jobManagerNew [PyArg.session, PyArg.job, PyArg.intArg] with
    | .ok _ =>
      let j1 := (startJob true j).2
      match repoManagerNew ["auth_provider"] with
      | .ok _ => afterStart j1 env
      | .error e => outerHandler j1 false e
    | .error e => outerHandler j false e

/-! ## StructureAnalyzer: `Parser.parse_code` (parser.py)

The walk of the tree is embedded as the list of files it visits (after the
directory pruning of parser.py:75); the Python `ast` module, an external
capability, is embedded as the `parse` field of the text of a file: `none` models
`ast.parse` raising `SyntaxError`, `some t` a successful parse with the
structural data `t`.  Reading a file is `read : Option SrcText`, with `none`
modelling `open`/`read` raising. -/

/-- Structural data `ast.parse` + the AST walk deliver for one Python file:
the function names (parser.py:540-575), class names (parser.py:860-893) and
imported module names (parser.py:272-323) found in the tree. -/
structure PyTree where
  functions : List String
  classes : List String
  imports : List String
  deriving Repr, DecidableEq

/-- The readable content of a file: its metadata as `_parse_file` computes it
(parser.py:119-120: `size = len(content)`, `lines = content.count(nl) + 1`)
and the outcome of parsing it. -/
structure SrcText where
  size : Nat
  lines : Nat
  parse : Option PyTree
  deriving Repr, DecidableEq

/-- A file the tree walk visits: path relative to the root, extension, and
its content (`none` when reading raises). -/
structure SrcFile where
  path : String
  ext : String
  read : Option SrcText
  deriving Repr, DecidableEq

/-- Embedding of `Parser.supported_extensions` (parser.py:28-37). -/
def supportedExtensions : List (String × String) :=
  [(".py", "python"), (".js", "javascript"), (".ts", "typescript"),
   (".java", "java"), (".cpp", "cpp"), (".c", "c"), (".go", "go"), (".rs", "rust")]

/-- Extension dispatch (`ext in self.supported_extensions`, parser.py:83). -/
def isSupported (ext : String) : Bool :=
  (supportedExtensions.lookup ext).isSome

/-- Embedding of `Parser._extract_python_functions` (parser.py:517-582): re-opens the file
and parses it; `SyntaxError` (and any read failure) is caught and yields `[]`
(parser.py:577-582). -/
def extractPythonFunctions (f : SrcFile) : List String :=
  match f.read with
  | none => []
  | some txt =>
    match txt.parse with
    | none => []
    | some t => t.functions

/-- Embedding of `Parser._extract_python_classes` (parser.py:846-899): same failure policy,
`SyntaxError` yields `[]` (parser.py:897-899). -/
def extractPythonClasses (f : SrcFile) : List String :=
  match f.read with
  | none => []
  | some txt =>
    match txt.parse with
    | none => []
    | some t => t.classes

/-- Embedding of `Parser._extract_python_imports` (parser.py:239-334): `SyntaxError` yields
the empty import dictionary (parser.py:326-334); the embedding keeps only the
flat list of imported module names. -/
def extractPythonImports (f : SrcFile) : List String :=
  match f.read with
  | none => []
  | some txt =>
    match txt.parse with
    | none => []
    | some t => t.imports

/-- One entry of `parsed_data["files"]` as `_parse_file` builds it
(parser.py:116-138). -/
structure FileInfo where
  path : String
  size : Nat
  lines : Nat
  functions : List String
  classes : List String
  imports : List String
  deriving Repr, DecidableEq

/-- Embedding of `Parser._parse_file` (parser.py:95-142) for a Python file: reading the
content can raise, in which case the outer `except Exception` returns `None`
(parser.py:140-142); otherwise the three extractors are called, each of which
degrades to empty lists on a parse error instead of raising. -/
def parseFile (f : SrcFile) : Option FileInfo :=
  match f.read with
  | none => none
  | some txt =>
    some { path := f.path, size := txt.size, lines := txt.lines,
           functions := extractPythonFunctions f,
           classes := extractPythonClasses f,
           imports := extractPythonImports f }

/-- Result of `Parser.parse_code`: `ok = false` models the `except Exception`
branch returning the empty dict (parser.py:91-93), which is reached when
the root path does not exist (parser.py:55-56). -/
structure ParsedData where
  ok : Bool
  files : List FileInfo
  deriving Repr, DecidableEq

/-- Embedding of `Parser.parse_code` (parser.py:39-93): raises `FileNotFoundError` for a
missing root (caught by its own handler, returning the empty dict), then walks the
tree, keeps the files with supported extensions, and appends the `_parse_file`
result of each when it is not `None` (parser.py:84-86). -/
def parseCode (rootExists : Bool) (tree : List SrcFile) : ParsedData :=
  if rootExists then
    { ok := true,
      files := tree.filterMap (fun f => if isSupported f.ext then parseFile f else none) }
  else { ok := false, files := [] }

/-! ## PatchPublisher: `Patcher._send_api_request` (patcher.py) -/

/-- Outcome of one HTTP request issued by the `httpx` client inside
`Patcher._send_api_request`:
* `ok`: a success status whose body `response.json()` decodes;
* `okBadJson`: a success status whose body fails to decode (`response.json()`
  raises, and that exception is neither `HTTPStatusError` nor `RequestError`,
  so it escapes the loop);
* `status c`: a status `c ≥ 400`, so `raise_for_status()` raises
  `httpx.HTTPStatusError`;
* `netErr`: `httpx.RequestError` (no response at all). -/
inductive ApiResp where
  | ok
  | okBadJson
  | status (code : Nat)
  | netErr
  deriving Repr, DecidableEq

/-- Result of one `_send_api_request` call: how many HTTP requests were
issued, the total time slept across retries, and the returned value
(`Except.ok none` = the Python `None`, `Except.ok (some ())` = a decoded JSON
body, `Except.error` = an exception escaped the method). -/
structure ApiRun where
  requests : Nat
  waited : ℚ
  result : Except String (Option Unit)
  deriving Repr

/-- The body of the `for attempt in range(self.api_retries)` loop of
`Patcher._send_api_request` (patcher.py:223-243), starting at attempt number
`attempt` with `remaining` loop iterations left.  `resps k` is the outcome of
the request the `k`-th attempt would issue, `jits k` the value
`random.uniform(0, 1)` would return on the `k`-th attempt.  A 5xx status
sleeps `api_retry_delay * api_retry_backoff ** attempt + jitter`
(patcher.py:234-236) and retries; any other error status returns `None` at
once (patcher.py:237-239); a `RequestError` returns `None` at once
(patcher.py:240-242); falling out of the loop returns `None`
(patcher.py:243). -/
def sendApiFrom (delay backoff : ℚ) (resps : Nat → ApiResp) (jits : Nat → ℚ) :
    Nat → Nat → ApiRun
  | _, 0 => { requests := 0, waited := 0, result := .ok none }
  | attempt, n + 1 =>
    match resps attempt with
    | .ok => { requests := 1, waited := 0, result := .ok (some ()) }
    | .okBadJson => { requests := 1, waited := 0, result := .error "JSONDecodeError" }
    | .status c =>
      if 500 ≤ c ∧ c < 600 then
        let rest := sendApiFrom delay backoff resps jits (attempt + 1) n
        { requests := rest.requests + 1,
          waited := rest.waited + (delay * backoff ^ attempt + jits attempt),
          result := rest.result }
      else { requests := 1, waited := 0, result := .ok none }
    | .netErr => { requests := 1, waited := 0, result := .ok none }

/-- Embedding of `Patcher._send_api_request` (patcher.py:223-243): the retry loop run from
attempt 0 with `retries` iterations.  The configured defaults are
`api_retries = 3`, `api_retry_delay = 2`, `api_retry_backoff = 2`
(patcher.py:49-51). -/
def sendApiRequest (retries : Nat) (delay backoff : ℚ) (resps : Nat → ApiResp)
    (jits : Nat → ℚ) : ApiRun :=
  sendApiFrom delay backoff resps jits 0 retries

/-- A response with a 5xx status — the only kind of outcome the retry loop
retries (patcher.py:233). -/
def is5xx (r : ApiResp) : Prop :=
  ∃ c, r = ApiResp.status c ∧ 500 ≤ c ∧ c < 600

/-- Total sleep for `m` consecutively retried attempts starting at attempt
number `attempt`: after the `k`-th retried attempt the loop sleeps
`api_retry_delay * api_retry_backoff ** k + random.uniform(0, 1)`
(patcher.py:234-236). -/
def backoffSum (delay backoff : ℚ) (jits : Nat → ℚ) : Nat → Nat → ℚ
  | _, 0 => 0
  | attempt, m + 1 =>
    (delay * backoff ^ attempt + jits attempt)
      + backoffSum delay backoff jits (attempt + 1) m

/-! ## PatchPublisher: `Patcher.create_patch_or_pr` (patcher.py)

The git working tree is embedded as the state the git subprocesses observe
and mutate: existing branches, the number of commits, and whether staging the
documentation patterns stages anything. -/

/-- The git working tree `create_patch_or_pr` operates on.  `hasDocChanges`
is the outcome of `git diff --cached --name-only` after
`_stage_documentation_files` has run: whether any documentation-pattern file
has modifications to stage (patcher.py:443-482). -/
structure GitTree where
  pathExists : Bool
  isGitRepo : Bool
  branches : List String
  commits : Nat
  hasDocChanges : Bool
  deriving Repr, DecidableEq

/-- Embedding of `Patcher._create_branch` (patcher.py:427-441): `git checkout -b name`
fails if the branch already exists; the `CalledProcessError` is caught inside
and `False` returned, otherwise the branch is created.  (Its boolean result
is ignored by the caller, patcher.py:83.) -/
def createBranch (name : String) (g : GitTree) : Bool × GitTree :=
  if g.branches.contains name then (false, g)
  else (true, { g with branches := name :: g.branches })

/-- Embedding of `Patcher.create_patch_or_pr` (patcher.py:56-111).  `ts` is the UTC
timestamp used in the branch name (patcher.py:82), `commitOk` the outcome of
the `git commit` subprocess (its boolean result is ignored by the caller,
patcher.py:94), `patchFileOk` whether `_create_patch_file` succeeds (it
raises `RuntimeError` otherwise, caught by the outer handler which returns
`False`, patcher.py:109-111).  Control flow: missing path or non-repo
→ `False`; then branch creation, staging, and — only if staged changes exist
— commit and patch file; with zero staged changes it returns `True` at once
(patcher.py:89-91). -/
def createPatchOrPr (ts : String) (commitOk patchFileOk : Bool) (g : GitTree) :
    Bool × GitTree :=
  if !g.pathExists then (false, g)
  else if !g.isGitRepo then (false, g)
  else
    let g1 := (createBranch ("feature/docs-" ++ ts) g).2
    if !g1.hasDocChanges then (true, g1)
    else
      let g2 := if commitOk then { g1 with commits := g1.commits + 1 } else g1
      if patchFileOk then (true, g2) else (false, g2)

/-! ## SourceFetcher cleanup sweep: `RepoManager.cleanup_temp_repos`
(repo_manager.py) -/

/-- Sort order of repo_manager.py:454: `temp_repos.sort(key=lambda x: x[1],
reverse=True)` — newest (largest mtime) first. -/
def newerFirst (a b : String × Nat) : Prop := b.2 ≤ a.2

instance : DecidableRel newerFirst := fun a b => Nat.decLe b.2 a.2

instance : IsTotal (String × Nat) newerFirst :=
  ⟨fun a b => (Nat.le_total a.2 b.2).symm.imp id id⟩

instance : IsTrans (String × Nat) newerFirst :=
  ⟨fun _ _ _ hab hbc => Nat.le_trans hbc hab⟩

/-- Embedding of `RepoManager.cleanup_temp_repos` (repo_manager.py:431-472): `dirs` is the
listing of the temp root as `(path, mtime)` pairs (repo_manager.py:446-451);
they are sorted newest-first and every entry past the first `keep` is removed
with `shutil.rmtree` (repo_manager.py:453-465, removal assumed to succeed).
Returned: the count of removed directories (the Python return value) and the
list of removed directories. -/
def cleanupTempRepos (keep : Nat) (dirs : List (String × Nat)) :
    Nat × List (String × Nat) :=
  let sorted := dirs.insertionSort newerFirst
  let removed := sorted.drop keep
  (removed.length, removed)

/-- The directories surviving a `cleanupTempRepos` sweep: the `keep`
newest-first entries. -/
def keptRepos (keep : Nat) (dirs : List (String × Nat)) : List (String × Nat) :=
  (dirs.insertionSort newerFirst).take keep

/-! ## CredentialResolver: `RepoManager._embed_token_in_url`
(repo_manager.py) and the path round-trip of §8

`_embed_token_in_url` (repo_manager.py:318-339) splits the URL on `://`
(Python `str.split`, which splits at every occurrence) and, when that yields
exactly two parts, rebuilds `scheme://token@rest`.  The path component is
never touched — in particular it is never decoded or re-encoded.  The
round-trip of the claim needs `urllib.parse.unquote` / `quote`, embedded
below for ASCII text (`quote` percent-encodes every byte outside the Python
always-safe set plus the default safe character `/`, using uppercase hex;
`unquote` decodes `%XX` pairs and leaves malformed escapes alone). -/

/-- Python `url.split("://")` on a character list: splits at every
(non-overlapping, left-to-right) occurrence of `://`. -/
def splitSchemeAux (acc : List Char) : List Char → List (List Char)
  | [] => [acc.reverse]
  | ':' :: '/' :: '/' :: rest => acc.reverse :: splitSchemeAux [] rest
  | c :: rest => splitSchemeAux (c :: acc) rest

/-- Embedding of `url.split("://")` (repo_manager.py:332). -/
def pySplitScheme (s : String) : List String :=
  (splitSchemeAux [] s.toList).map (fun l => String.mk l)

/-- Python `str.startswith(("https://", "http://"))` (repo_manager.py:330),
by direct character matching. -/
def isHttpUrl (url : String) : Bool :=
  match url.toList with
  | 'h' :: 't' :: 't' :: 'p' :: 's' :: ':' :: '/' :: '/' :: _ => true
  | 'h' :: 't' :: 't' :: 'p' :: ':' :: '/' :: '/' :: _ => true
  | _ => false

/-- Embedding of `RepoManager._embed_token_in_url` (repo_manager.py:318-339): for a truthy
token and an http(s) URL that splits into exactly two parts on `://`, insert
`token@` in front of the authority; every other input is returned
unchanged. -/
def embedTokenInUrl (url token : String) : String :=
  if token != "" && isHttpUrl url then
    match pySplitScheme url with
    | [s, rest] => s ++ "://" ++ token ++ "@" ++ rest
    | _ => url
  else url

/-- The path component of an http(s) URL as `urllib.parse.urlsplit().path`
yields it for URLs without query or fragment: everything from the first `/`
after the authority (the part after `://`). -/
def pathOf (url : String) : String :=
  match pySplitScheme url with
  | [_, rest] => String.mk (rest.toList.dropWhile (fun c => c ≠ '/'))
  | _ => ""

/-- Stripping the userinfo (the embedded token) from an http(s) URL: drop
everything up to the last `@` of the authority component, as
`netloc.rpartition(at)` does. -/
def stripUserinfo (url : String) : String :=
  match pySplitScheme url with
  | [s, rest] =>
    if (rest.toList.takeWhile (fun c => c ≠ '/')).contains '@' then
      s ++ "://" ++ String.mk
        (((rest.toList.takeWhile (fun c => c ≠ '/')).reverse.takeWhile
            (fun c => c ≠ '@')).reverse
          ++ rest.toList.dropWhile (fun c => c ≠ '/'))
    else url
  | _ => url

/-- the Python `urllib.parse.quote` always-safe characters plus the default
`safe = "/"`: ASCII letters, digits, `_ . - ~` and `/`. -/
def pyQuoteSafe (c : Char) : Bool :=
  c.isAlpha || c.isDigit || c == '_' || c == '.' || c == '-' || c == '~' || c == '/'

/-- Uppercase hex digit, as `quote` emits. -/
def hexDigitChar (n : Nat) : Char :=
  if n < 10 then Char.ofNat ('0'.toNat + n) else Char.ofNat ('A'.toNat + n - 10)

/-- Embedding of `urllib.parse.quote` with the default safe set, for ASCII text: each
unsafe character becomes `%XX`. -/
def pyQuote (s : String) : String :=
  String.mk (List.flatten (s.toList.map (fun c =>
    if pyQuoteSafe c then [c]
    else ['%', hexDigitChar (c.toNat / 16 % 16), hexDigitChar (c.toNat % 16)])))

/-- Value of an ASCII hex digit: numeric, lowercase or uppercase. -/
def hexVal (c : Char) : Option Nat :=
  if '0' ≤ c ∧ c ≤ '9' then some (c.toNat - '0'.toNat)
  else if 'a' ≤ c ∧ c ≤ 'f' then some (c.toNat - 'a'.toNat + 10)
  else if 'A' ≤ c ∧ c ≤ 'F' then some (c.toNat - 'A'.toNat + 10)
  else none

/-- Embedding of `urllib.parse.unquote` for ASCII text: decode `%XX` pairs, leave
malformed escapes as they are. -/
def pyUnquoteAux : List Char → List Char
  | [] => []
  | '%' :: a :: b :: rest =>
    match hexVal a, hexVal b with
    | some x, some y => Char.ofNat (16 * x + y) :: pyUnquoteAux rest
    | _, _ => '%' :: pyUnquoteAux (a :: b :: rest)
  | c :: rest => c :: pyUnquoteAux rest

/-- Embedding of `urllib.parse.unquote` on a string. -/
def pyUnquote (s : String) : String :=
  String.mk (pyUnquoteAux s.toList)

/-! ## Concrete instances used by the closed theorems below -/

/-- Concrete valid Python file for the C4 witness. -/
def c4valid : SrcFile :=
  { path := "pkg/good.py", ext := ".py",
    read := some { size := 64, lines := 5,
                   parse := some { functions := ["main"], classes := ["App"],
                                   imports := ["os"] } } }

/-- Concrete syntactically invalid Python file for the C4 witness. -/
def c4invalid : SrcFile :=
  { path := "pkg/bad.py", ext := ".py",
    read := some { size := 10, lines := 1, parse := none } }

/-- Concrete response sequence for the C6 witness: two 503 responses, then a
success. -/
def c6resps : Nat → ApiResp :=
  fun k => if k = 0 then ApiResp.status 503 else if k = 1 then ApiResp.status 503 else ApiResp.ok

/-- Concrete jitter draws for the C6 witness. -/
def c6jits : Nat → ℚ := fun _ => 0

/-- Concrete response sequence for the C6 witness covering a 4xx arriving
after a 5xx: a 503, then 404 on every later attempt. -/
def c6resps4 : Nat → ApiResp :=
  fun k => if k = 0 then ApiResp.status 503 else ApiResp.status 404

/-- Concrete working tree with zero staged documentation changes for the C7
counterexample. -/
def c7tree : GitTree :=
  { pathExists := true, isGitRepo := true, branches := ["main"], commits := 0,
    hasDocChanges := false }

/-- Concrete listing of five working directories with distinct modification
times for the C9 witness. -/
def c9dirs : List (String × Nat) :=
  [("job-a", 11), ("job-b", 55), ("job-c", 33), ("job-d", 22), ("job-e", 44)]

/-! ## C1: illegal job transitions -/

/-- C1 (counterexample): the illegal transition `completed -> running` is NOT
rejected: `start_job` on a completed job returns `True` and commits status
"running", changing the persisted row — `start_job` has no status guard
(job_manager.py:40-45), so it does not succeed only from "pending". -/
theorem C1_counterexample :
    (startJob true { initialJob with status := "completed" }).1 = true ∧
    (startJob true { initialJob with status := "completed" }).2.status = "running" ∧
    (startJob true { initialJob with status := "completed" }).2 ≠
      { initialJob with status := "completed" } := by
  refine ⟨rfl, rfl, ?_⟩
  decide

/-- C1 (amended): only the guarded operations reject illegal transitions:
`cancel_job` from "completed" or "failed" returns `False` and leaves the row
unchanged, and `retry_job` from any non-"failed" status returns `False` and
leaves the row unchanged; `start_job` performs no status check and moves any
job (e.g. a completed one) to "running". -/
theorem C1_amended (j : JobRec) (ok : Bool) :
    (j.status = "completed" ∨ j.status = "failed" → cancelJob ok j = (false, j)) ∧
    (j.status ≠ "failed" → retryJob ok j = (false, j)) ∧
    startJob true j = (true, { j with status := "running" }) := by
  refine ⟨?_, ?_, rfl⟩
  · intro h
    rcases h with h | h <;> simp [cancelJob, h]
  · intro h
    simp [retryJob, h]

/-- C1 (witness for the amended theorem): canceling a completed job is
rejected and leaves the row unchanged. -/
theorem C1_amended_witness :
    cancelJob true { initialJob with status := "completed" } =
      (false, { initialJob with status := "completed" }) :=
  (C1_amended { initialJob with status := "completed" } true).1 (Or.inl rfl)

/-! ## C5: error_message non-empty iff failed -/

/-- C5 (counterexample): the state reached by `fail_job("boom")` followed by
`retry_job()` has status "pending" together with the non-empty error message
"boom" — `retry_job` (job_manager.py:165-170) does not clear `error_message`,
so a non-failed status coexists with a non-empty message and the claimed
equivalence fails. -/
theorem C5_counterexample :
    (runOps [JMOp.fail "boom" true, JMOp.retry true] initialJob).status = "pending" ∧
    errNonEmpty (runOps [JMOp.fail "boom" true, JMOp.retry true] initialJob) = true ∧
    ¬((runOps [JMOp.fail "boom" true, JMOp.retry true] initialJob).status = "failed") := by
  refine ⟨rfl, rfl, ?_⟩
  decide

/-- Preservation of the forward direction of the invariant by one transition
operation, provided `fail_job` messages are non-empty. -/
theorem applyOp_failedImpliesMsg (op : JMOp) (j : JobRec) (hop : failMsgOk op)
    (hj : failedImpliesMsg j) : failedImpliesMsg (applyOp op j).2 := by
  cases op with
  | start ok =>
    cases ok with
    | false => exact hj
    | true => intro h; simp [applyOp, startJob] at h
  | complete ok =>
    cases ok with
    | false => exact hj
    | true => intro h; simp [applyOp, completeJob] at h
  | fail msg ok =>
    cases ok with
    | false => exact hj
    | true =>
      intro _
      simpa [applyOp, failJob, errNonEmpty, failMsgOk] using hop
  | progress p ok =>
    cases p with
    | none => exact hj
    | some v =>
      cases ok with
      | false => exact hj
      | true =>
        intro h
        have h2 : j.status = "failed" := h
        simpa [applyOp, updateProgress, errNonEmpty] using hj h2
  | cancel ok =>
    by_cases hg : (j.status != "completed" && j.status != "failed") = true
    · cases ok with
      | false => simpa [applyOp, cancelJob, hg] using hj
      | true =>
        simp only [applyOp, cancelJob, hg, if_true]
        intro h
        simp at h
    · simpa [applyOp, cancelJob, hg] using hj
  | retry ok =>
    by_cases hg : (j.status == "failed") = true
    · cases ok with
      | false => simpa [applyOp, retryJob, hg] using hj
      | true =>
        simp only [applyOp, retryJob, hg, if_true]
        intro h
        simp at h
    · simpa [applyOp, retryJob, hg] using hj

/-- C5 (amended): in every state reachable from a fresh job through the
transition operations, with `fail_job` always invoked with a non-empty
message, a "failed" status implies a non-empty `error_message`; the converse
direction of the claimed equivalence is false (see the counterexample),
because `retry_job` leaves `error_message` in place when it resets a failed
job to "pending". -/
theorem C5_amended (ops : List JMOp) (j : JobRec)
    (hops : ∀ op ∈ ops, failMsgOk op) (hj : failedImpliesMsg j) :
    failedImpliesMsg (runOps ops j) := by
  induction ops generalizing j with
  | nil => exact hj
  | cons op rest ih =>
    have h1 : failedImpliesMsg (applyOp op j).2 :=
      applyOp_failedImpliesMsg op j (hops op (List.mem_cons_self op rest)) hj
    exact ih (applyOp op j).2 (fun o ho => hops o (List.mem_cons_of_mem op ho)) h1

/-- C5 (witness for the amended theorem): after a single failing transition
with message "disk full", the reachable state satisfies the forward
invariant. -/
theorem C5_amended_witness :
    failedImpliesMsg (runOps [JMOp.fail "disk full" true] initialJob) :=
  C5_amended [JMOp.fail "disk full" true] initialJob
    (by intro op ho
        simp only [List.mem_singleton] at ho
        subst ho
        simp [failMsgOk])
    (by intro h; exact absurd h (by decide))

/-! ## C10: totality and atomicity of the transition operations -/

/-- C10: every transition operation is atomic on the persisted row: whenever
it returns `False` (in particular whenever `db.commit()` fails and the
session is rolled back, job_manager.py:46-49 and parallel handlers) the
persisted row is unchanged; and whenever an operation that reaches
`db.commit()` has its commit fail, it does return `False`.  Totality (no
exception escapes) is captured by the embedding: each operation is a total
function into `Bool × JobRec`, mirroring the `try`/`except Exception` body
that converts every failure into a `False` return. -/
theorem C10_atomic_ops (op : JMOp) (j : JobRec) :
    ((applyOp op j).1 = false → (applyOp op j).2 = j) ∧
    (opCommits op j = true → opCommitOk op = false → (applyOp op j).1 = false) := by
  cases op with
  | start ok => cases ok <;> simp [applyOp, startJob, opCommits, opCommitOk]
  | complete ok => cases ok <;> simp [applyOp, completeJob, opCommits, opCommitOk]
  | fail msg ok => cases ok <;> simp [applyOp, failJob, opCommits, opCommitOk]
  | progress p ok =>
    cases p <;> cases ok <;> simp [applyOp, updateProgress, opCommits, opCommitOk]
  | cancel ok =>
    by_cases hg : (j.status != "completed" && j.status != "failed") = true <;>
      cases ok <;> simp [applyOp, cancelJob, opCommits, opCommitOk, hg]
  | retry ok =>
    by_cases hg : (j.status == "failed") = true <;>
      cases ok <;> simp [applyOp, retryJob, opCommits, opCommitOk, hg]

/-- C10 (witness): a `start_job` whose commit fails returns `False` and
leaves the fresh row unchanged. -/
theorem C10_atomic_ops_witness :
    (applyOp (JMOp.start false) initialJob).2 = initialJob ∧
    (applyOp (JMOp.start false) initialJob).1 = false :=
  ⟨(C10_atomic_ops (JMOp.start false) initialJob).1 (by decide),
   (C10_atomic_ops (JMOp.start false) initialJob).2 (by decide) (by decide)⟩

/-! ## C2: fetch failure — cleanup and failed status -/

/-- C2 (failing run): on a pending job whose clone would end in an unexpected
exception with a partially created directory, the orchestrator leaves the job
row exactly as it was — still "pending", with no error message — because the
three-argument `JobManager(session, job_to_start, job_id_for_error)`
construction (worker.py:379) raises `TypeError` before any transition, and
the identical construction in the outer handler (worker.py:432) raises again,
so the exception escapes the task; moreover at the `RepoManager` level the
catch-all handler of `_clone_with_subprocess` (repo_manager.py:214-216)
returns `False` while the partially created destination directory still
exists.  The claim — directory removed, job "failed" with a non-empty
`error_message` — fails on both counts. -/
theorem C2_fetch_failure_bug :
    (processDocumentationJob (some initialJob)
      { clone := CloneOutcome.otherExc true, genOk := true, patchOk := true }).finalJob
        = some initialJob ∧
    initialJob.status = "pending" ∧
    initialJob.errorMessage = none ∧
    (processDocumentationJob (some initialJob)
      { clone := CloneOutcome.otherExc true, genOk := true, patchOk := true }).result
        = Except.error "TypeError: JobManager.__init__ takes 3 positional arguments but 4 were given" ∧
    cloneWithSubprocess (CloneOutcome.otherExc true) = (false, true) :=
  ⟨rfl, rfl, rfl, rfl, rfl⟩

/-! ## C3: doc-generation error — failed status, no retry -/

/-- C3 (failing run): on a pending job in an environment where the
doc-generation capability reports an error (`generate_documentation` would
return `False`), the job does NOT end in status "failed": the run never
reaches the generation stage.  Phase 2 raises `TypeError` at the
three-argument `JobManager` construction (worker.py:379), the outer handler
raises the same `TypeError` (worker.py:432), and the row stays "pending"
untouched.  Independently, even if the constructors were repaired, worker.py
discards the boolean result of `generate_documentation` (worker.py:412), so a
reported generation error could not map to `fail_job`. -/
theorem C3_generation_error_bug :
    ((processDocumentationJob (some initialJob)
      { clone := CloneOutcome.success, genOk := false, patchOk := true }).finalJob.map
        JobRec.status) = some "pending" ∧
    generateDocumentation false = false ∧
    (processDocumentationJob (some initialJob)
      { clone := CloneOutcome.success, genOk := false, patchOk := true }).result
        = Except.error "TypeError: JobManager.__init__ takes 3 positional arguments but 4 were given" :=
  ⟨rfl, rfl, rfl⟩

/-! ## C4: per-file degradation of the analyzer -/

/-- C4: for every walked tree containing a readable valid Python file `v`
(parsing to `pv`) and a readable syntactically invalid Python file `i`
(`ast.parse` raises `SyntaxError`), the run completes (the embedding of
`parse_code` is a total function, mirroring its blanket `except` handlers),
the structural data of `v` is present in the result, and `i` still
contributes an entry whose function and class lists are empty — the
per-file `SyntaxError` handlers of parser.py:577-582, 897-899 and 326-334
keep the walk of the remaining tree alive. -/
theorem C4_degrades_per_file (tree : List SrcFile) (v i : SrcFile)
    (tv ti : SrcText) (pv : PyTree)
    (hv : v ∈ tree) (hi : i ∈ tree)
    (hvext : v.ext = ".py") (hiext : i.ext = ".py")
    (hvread : v.read = some tv) (hiread : i.read = some ti)
    (hvparse : tv.parse = some pv) (hiparse : ti.parse = none) :
    (parseCode true tree).ok = true ∧
    ({ path := v.path, size := tv.size, lines := tv.lines, functions := pv.functions,
       classes := pv.classes, imports := pv.imports } : FileInfo) ∈ (parseCode true tree).files ∧
    ({ path := i.path, size := ti.size, lines := ti.lines, functions := [],
       classes := [], imports := [] } : FileInfo) ∈ (parseCode true tree).files := by
  refine ⟨rfl, ?_, ?_⟩
  · apply List.mem_filterMap.mpr
    refine ⟨v, hv, ?_⟩
    simp only [hvext]
    show (if isSupported ".py" then parseFile v else none) = _
    rw [if_pos (by decide)]
    simp [parseFile, hvread, extractPythonFunctions, extractPythonClasses,
      extractPythonImports, hvparse]
  · apply List.mem_filterMap.mpr
    refine ⟨i, hi, ?_⟩
    simp only [hiext]
    show (if isSupported ".py" then parseFile i else none) = _
    rw [if_pos (by decide)]
    simp [parseFile, hiread, extractPythonFunctions, extractPythonClasses,
      extractPythonImports, hiparse]



/-- C4 (witness): on the two-file tree, the valid file contributes its
structural data and the invalid file contributes an entry with empty
function and class lists. -/
theorem C4_degrades_per_file_witness :
    ({ path := "pkg/good.py", size := 64, lines := 5, functions := ["main"],
       classes := ["App"], imports := ["os"] } : FileInfo)
        ∈ (parseCode true [c4valid, c4invalid]).files ∧
    ({ path := "pkg/bad.py", size := 10, lines := 1, functions := [],
       classes := [], imports := [] } : FileInfo)
        ∈ (parseCode true [c4valid, c4invalid]).files := by
  have h := C4_degrades_per_file [c4valid, c4invalid] c4valid c4invalid
    (c4valid.read.get (by decide)) (c4invalid.read.get (by decide))
    { functions := ["main"], classes := ["App"], imports := ["os"] }
    (by decide) (by decide) rfl rfl rfl rfl rfl rfl
  exact ⟨h.2.1, h.2.2⟩

/-! ## C6: bounded retry with exponential backoff, only on 5xx -/

/-- The retry loop never issues more requests than it has iterations left. -/
theorem sendApiFrom_requests_le (delay backoff : ℚ) (resps : Nat → ApiResp)
    (jits : Nat → ℚ) (attempt remaining : Nat) :
    (sendApiFrom delay backoff resps jits attempt remaining).requests ≤ remaining := by
  induction remaining generalizing attempt with
  | zero => exact Nat.le_refl 0
  | succ n ih =>
    show (sendApiFrom delay backoff resps jits attempt (n + 1)).requests ≤ n + 1
    rw [sendApiFrom]
    cases resps attempt with
    | ok => exact Nat.succ_le_succ (Nat.zero_le n)
    | okBadJson => exact Nat.succ_le_succ (Nat.zero_le n)
    | status c =>
      by_cases h5 : 500 ≤ c ∧ c < 600
      · simp only [h5, if_true]
        exact Nat.succ_le_succ (ih (attempt + 1))
      · simp only [h5, if_false]
        exact Nat.succ_le_succ (Nat.zero_le n)
    | netErr => exact Nat.succ_le_succ (Nat.zero_le n)

/-- Helper: scanning over `m` consecutive 5xx responses issues `m` requests,
sleeps their summed backoff-plus-jitter delays, and continues the loop `m`
attempts further on. -/
theorem sendApiFrom_skip5xx (delay backoff : ℚ) (resps : Nat → ApiResp) (jits : Nat → ℚ) :
    ∀ (m attempt n : Nat), (∀ k < m, is5xx (resps (attempt + k))) → m ≤ n →
      sendApiFrom delay backoff resps jits attempt n
        = { requests := (sendApiFrom delay backoff resps jits (attempt + m) (n - m)).requests + m,
            waited := (sendApiFrom delay backoff resps jits (attempt + m) (n - m)).waited
              + backoffSum delay backoff jits attempt m,
            result := (sendApiFrom delay backoff resps jits (attempt + m) (n - m)).result } := by
  intro m
  induction m with
  | zero =>
    intro attempt n _ _
    simp [backoffSum]
  | succ m ih =>
    intro attempt n h5 hmn
    obtain ⟨c, hc, h500, h600⟩ := h5 0 (Nat.succ_pos m)
    rw [Nat.add_zero] at hc
    obtain ⟨n2, rfl⟩ : ∃ n2, n = n2 + 1 := ⟨n - 1, by omega⟩
    have ih2 := ih (attempt + 1) n2 (fun k hk => by
      have hx := h5 (k + 1) (by omega)
      have he : attempt + (k + 1) = attempt + 1 + k := by omega
      rwa [he] at hx) (by omega)
    simp only [sendApiFrom, hc, if_pos (And.intro h500 h600)]
    rw [ih2]
    have he2 : attempt + 1 + m = attempt + (m + 1) := by omega
    have he3 : n2 - m = n2 + 1 - (m + 1) := by omega
    rw [he2, he3]
    simp only [ApiRun.mk.injEq]
    refine ⟨by omega, by rw [backoffSum]; ring, trivial⟩

/-- Helper: an error status outside the 5xx range stops the loop at once:
one request, no sleep, return `None` (the 4xx branch of patcher.py:237-239). -/
theorem sendApiFrom_stop_status (delay backoff : ℚ) (resps : Nat → ApiResp) (jits : Nat → ℚ)
    (attempt n c : Nat) (hc : resps attempt = ApiResp.status c)
    (hnot : ¬(500 ≤ c ∧ c < 600)) :
    sendApiFrom delay backoff resps jits attempt (n + 1)
      = { requests := 1, waited := 0, result := Except.ok none } := by
  simp only [sendApiFrom, hc, if_neg hnot]

/-- Helper: a network error without response stops the loop at once
(patcher.py:240-242). -/
theorem sendApiFrom_stop_netErr (delay backoff : ℚ) (resps : Nat → ApiResp) (jits : Nat → ℚ)
    (attempt n : Nat) (hc : resps attempt = ApiResp.netErr) :
    sendApiFrom delay backoff resps jits attempt (n + 1)
      = { requests := 1, waited := 0, result := Except.ok none } := by
  simp only [sendApiFrom, hc]

/-- Helper: a 5xx response adds exactly one request and recurses. -/
theorem sendApiFrom_requests_step (delay backoff : ℚ) (resps : Nat → ApiResp)
    (jits : Nat → ℚ) (attempt n c : Nat) (hc : resps attempt = ApiResp.status c)
    (h5 : 500 ≤ c ∧ c < 600) :
    (sendApiFrom delay backoff resps jits attempt (n + 1)).requests
      = (sendApiFrom delay backoff resps jits (attempt + 1) n).requests + 1 := by
  simp only [sendApiFrom, hc, if_pos h5]

/-- Helper: on any non-5xx outcome the loop issues at most one request. -/
theorem sendApiFrom_requests_one (delay backoff : ℚ) (resps : Nat → ApiResp)
    (jits : Nat → ℚ) (attempt n : Nat) (hnot : ¬ is5xx (resps attempt)) :
    (sendApiFrom delay backoff resps jits attempt (n + 1)).requests ≤ 1 := by
  cases hr : resps attempt with
  | ok => simp [sendApiFrom, hr]
  | okBadJson => simp [sendApiFrom, hr]
  | netErr => simp [sendApiFrom, hr]
  | status c =>
    have h5 : ¬(500 ≤ c ∧ c < 600) := fun hcc => hnot ⟨c, hr, hcc.1, hcc.2⟩
    simp [sendApiFrom, hr, if_neg h5]

/-- Helper: whenever the loop issues an attempt after attempt `m`, the
response to attempt `m` was a 5xx — i.e. only 5xx responses are retried. -/
theorem sendApiFrom_retry_only_5xx (delay backoff : ℚ) (resps : Nat → ApiResp) (jits : Nat → ℚ) :
    ∀ (n attempt m : Nat), m + 2 ≤ (sendApiFrom delay backoff resps jits attempt n).requests →
      is5xx (resps (attempt + m)) := by
  intro n
  induction n with
  | zero =>
    intro attempt m h
    simp [sendApiFrom] at h
  | succ n ih =>
    intro attempt m h
    by_cases h0 : is5xx (resps attempt)
    · obtain ⟨c, hc, h500, h600⟩ := h0
      cases m with
      | zero => exact ⟨c, by rw [Nat.add_zero]; exact hc, h500, h600⟩
      | succ m2 =>
        rw [sendApiFrom_requests_step delay backoff resps jits attempt n c hc
          ⟨h500, h600⟩] at h
        have hx := ih (attempt + 1) m2 (by omega)
        have he : attempt + 1 + m2 = attempt + (m2 + 1) := by omega
        rwa [he] at hx
    · have h1 := sendApiFrom_requests_one delay backoff resps jits attempt n h0
      omega

/-- C6: over every call sequence, the `_send_api_request` retry loop is
bounded by `api_retries` requests; after any run of `m` leading 5xx
responses, a 4xx response — and likewise a network error without response —
stops the call at exactly `m + 1` requests, returning `None`, having slept
exactly the sum of the `m` exponential backoff delays plus their jitters and
nothing more; conversely every attempt beyond the first follows a 5xx
response, so retries happen only on 5xx; and with the configured defaults
(3 attempts, delay 2, backoff factor 2) the response sequence 503, 503, 201
succeeds with exactly 3 requests and total sleep at least `2 + 2*2` — the
sum of the two backoff intervals. -/
theorem C6_retry_policy (retries : Nat) (delay backoff : ℚ) (resps : Nat → ApiResp)
    (jits : Nat → ℚ) :
    (sendApiRequest retries delay backoff resps jits).requests ≤ retries ∧
    (∀ m c, m < retries → (∀ k < m, is5xx (resps k)) → 400 ≤ c → c < 500 →
      resps m = ApiResp.status c →
      sendApiRequest retries delay backoff resps jits
        = { requests := m + 1, waited := backoffSum delay backoff jits 0 m,
            result := Except.ok none }) ∧
    (∀ m, m < retries → (∀ k < m, is5xx (resps k)) → resps m = ApiResp.netErr →
      sendApiRequest retries delay backoff resps jits
        = { requests := m + 1, waited := backoffSum delay backoff jits 0 m,
            result := Except.ok none }) ∧
    (∀ m, m + 2 ≤ (sendApiRequest retries delay backoff resps jits).requests →
      is5xx (resps m)) ∧
    ((∀ k, 0 ≤ jits k) → resps 0 = ApiResp.status 503 → resps 1 = ApiResp.status 503 →
      resps 2 = ApiResp.ok → retries = 3 → delay = 2 → backoff = 2 →
      (sendApiRequest retries delay backoff resps jits).requests = 3 ∧
      (sendApiRequest retries delay backoff resps jits).result = Except.ok (some ()) ∧
      2 + 2 * 2 ≤ (sendApiRequest retries delay backoff resps jits).waited) := by
  refine ⟨sendApiFrom_requests_le delay backoff resps jits 0 retries, ?_, ?_, ?_, ?_⟩
  · intro m c hm h5lead h400 h500 hr
    have hskip := sendApiFrom_skip5xx delay backoff resps jits m 0 retries
      (fun k hk => by simpa using h5lead k hk) (by omega)
    simp only [Nat.zero_add] at hskip
    rw [sendApiRequest, hskip]
    obtain ⟨r, hrr⟩ : ∃ r, retries - m = r + 1 := ⟨retries - m - 1, by omega⟩
    rw [hrr]
    rw [sendApiFrom_stop_status delay backoff resps jits m r c hr (by omega)]
    simp only [ApiRun.mk.injEq]
    refine ⟨by omega, by rw [zero_add], trivial⟩
  · intro m hm h5lead hr
    have hskip := sendApiFrom_skip5xx delay backoff resps jits m 0 retries
      (fun k hk => by simpa using h5lead k hk) (by omega)
    simp only [Nat.zero_add] at hskip
    rw [sendApiRequest, hskip]
    obtain ⟨r, hrr⟩ : ∃ r, retries - m = r + 1 := ⟨retries - m - 1, by omega⟩
    rw [hrr]
    rw [sendApiFrom_stop_netErr delay backoff resps jits m r hr]
    simp only [ApiRun.mk.injEq]
    refine ⟨by omega, by rw [zero_add], trivial⟩
  · intro m h
    have hx := sendApiFrom_retry_only_5xx delay backoff resps jits retries 0 m h
    simpa using hx
  · intro hj h0 h1 h2 hret hdelay hbackoff
    subst hret; subst hdelay; subst hbackoff
    have hrun : sendApiRequest 3 2 2 resps jits
        = { requests := 3,
            waited := (0 + (2 * 2 ^ 1 + jits 1)) + (2 * 2 ^ 0 + jits 0),
            result := Except.ok (some ()) } := by
      rw [sendApiRequest, sendApiFrom, h0]
      rw [sendApiFrom, h1]
      rw [sendApiFrom, h2]
      norm_num
    rw [hrun]
    refine ⟨rfl, rfl, ?_⟩
    have hj0 := hj 0
    have hj1 := hj 1
    simp only []
    norm_num
    linarith



/-- C6 (witness): on the 503-then-404 sequence the call stops after exactly
2 requests with total sleep 2 (the single backoff interval, zero jitter),
returning `None` — a 4xx arriving after a 5xx is not retried; and with the
default configuration the 503/503/201 sequence succeeds after exactly 3
requests with total wait at least 6. -/
theorem C6_retry_policy_witness :
    sendApiRequest 3 2 2 c6resps4 c6jits
      = { requests := 2, waited := 2, result := Except.ok none } ∧
    (sendApiRequest 3 2 2 c6resps c6jits).requests = 3 ∧
    (sendApiRequest 3 2 2 c6resps c6jits).result = Except.ok (some ()) ∧
    2 + 2 * 2 ≤ (sendApiRequest 3 2 2 c6resps c6jits).waited := by
  constructor
  · have h := (C6_retry_policy 3 2 2 c6resps4 c6jits).2.1 1 404 (by omega)
      (fun k hk => by
        have hk0 : k = 0 := by omega
        subst hk0
        exact ⟨503, rfl, by omega, by omega⟩)
      (by omega) (by omega) rfl
    rw [h]
    have hB : backoffSum 2 2 c6jits 0 1 = 2 := by
      norm_num [backoffSum, c6jits]
    rw [hB]
  · exact (C6_retry_policy 3 2 2 c6resps c6jits).2.2.2.2 (fun _ => le_refl 0)
      rfl rfl rfl rfl rfl rfl

/-! ## C7: no-op publish -/


/-- C7 (counterexample): on a tree where staging produces zero changes,
`create_patch_or_pr` returns success and creates no commit, BUT it has
already created the timestamped branch before the change check runs
(patcher.py:82-83 precede patcher.py:89-91): the branch list is changed, so
"without creating ... branch artifacts" is false. -/
theorem C7_counterexample :
    (createPatchOrPr "20240101-000000" true true c7tree).1 = true ∧
    (createPatchOrPr "20240101-000000" true true c7tree).2.commits = 0 ∧
    (createPatchOrPr "20240101-000000" true true c7tree).2.branches
      = ["feature/docs-20240101-000000", "main"] ∧
    (createPatchOrPr "20240101-000000" true true c7tree).2.branches ≠ c7tree.branches := by
  refine ⟨rfl, rfl, rfl, ?_⟩
  decide

/-- Field preservation of `git checkout -b`: creating (or failing to create)
a branch does not touch the path, the repository flag, the commit count or
the staged-changes outcome. -/
theorem createBranch_preserves (name : String) (g : GitTree) :
    (createBranch name g).2.pathExists = g.pathExists ∧
    (createBranch name g).2.isGitRepo = g.isGitRepo ∧
    (createBranch name g).2.commits = g.commits ∧
    (createBranch name g).2.hasDocChanges = g.hasDocChanges := by
  by_cases h : name ∈ g.branches <;> simp [createBranch, h]

/-- C7 (amended): on a working tree with zero staged documentation changes,
`Publish` returns success without creating a commit, and invoking it twice in
a row returns success both times and creates zero commits — but each
invocation creates (or attempts) a fresh timestamped branch before the
no-change check, so the absence of branch artifacts claimed for the no-op
case does not hold. -/
theorem C7_amended (g : GitTree) (ts1 ts2 : String) (c1 p1 c2 p2 : Bool)
    (he : g.pathExists = true) (hr : g.isGitRepo = true)
    (hd : g.hasDocChanges = false) :
    (createPatchOrPr ts1 c1 p1 g).1 = true ∧
    (createPatchOrPr ts2 c2 p2 (createPatchOrPr ts1 c1 p1 g).2).1 = true ∧
    (createPatchOrPr ts2 c2 p2 (createPatchOrPr ts1 c1 p1 g).2).2.commits = g.commits := by
  obtain ⟨hb1, hb2, hb3, hb4⟩ := createBranch_preserves ("feature/docs-" ++ ts1) g
  have hfirst : createPatchOrPr ts1 c1 p1 g = (true, (createBranch ("feature/docs-" ++ ts1) g).2) := by
    simp [createPatchOrPr, he, hr, hd, hb4]
  set g1 := (createBranch ("feature/docs-" ++ ts1) g).2 with hg1
  obtain ⟨hc1, hc2, hc3, hc4⟩ := createBranch_preserves ("feature/docs-" ++ ts2) g1
  have hsecond : createPatchOrPr ts2 c2 p2 g1 = (true, (createBranch ("feature/docs-" ++ ts2) g1).2) := by
    simp [createPatchOrPr, hb1, he, hb2, hr, hb4, hd, hc4]
  refine ⟨by rw [hfirst], ?_, ?_⟩
  · rw [hfirst]
    show (createPatchOrPr ts2 c2 p2 g1).1 = true
    rw [hsecond]
  · rw [hfirst]
    show (createPatchOrPr ts2 c2 p2 g1).2.commits = g.commits
    rw [hsecond]
    show (createBranch ("feature/docs-" ++ ts2) g1).2.commits = g.commits
    rw [hc3, hb3]

/-- C7 (witness for the amended theorem): two successive publishes on a
clean tree both succeed and leave the commit count at zero. -/
theorem C7_amended_witness :
    (createPatchOrPr "t1" true true c7tree).1 = true ∧
    (createPatchOrPr "t2" true true (createPatchOrPr "t1" true true c7tree).2).1 = true ∧
    (createPatchOrPr "t2" true true (createPatchOrPr "t1" true true c7tree).2).2.commits
      = c7tree.commits :=
  C7_amended c7tree "t1" "t2" true true true true rfl rfl rfl

/-! ## C9: the cleanup sweep deletes exactly the oldest directories -/

/-- C9: for directories with pairwise distinct modification times and any
`keep`, the sweep removes `length - keep` directories, the kept and removed
directories together are exactly the original ones, and every removed
directory is strictly older than every kept one — i.e. exactly the
directories outside the `keep` most recently modified are deleted, and the
removal count is returned. -/
theorem C9_prune_old (keep : Nat) (dirs : List (String × Nat))
    (hdist : (dirs.map Prod.snd).Nodup) :
    (cleanupTempRepos keep dirs).1 = dirs.length - keep ∧
    (keptRepos keep dirs ++ (cleanupTempRepos keep dirs).2).Perm dirs ∧
    (∀ d ∈ (cleanupTempRepos keep dirs).2, ∀ k ∈ keptRepos keep dirs, d.2 < k.2) := by
  have hperm : (dirs.insertionSort newerFirst).Perm dirs := List.perm_insertionSort _ _
  have hsorted : List.Sorted newerFirst (dirs.insertionSort newerFirst) :=
    List.sorted_insertionSort _ _
  simp only [cleanupTempRepos, keptRepos]
  set s := dirs.insertionSort newerFirst with hs
  have hsplit : s.take keep ++ s.drop keep = s := List.take_append_drop keep s
  refine ⟨?_, ?_, ?_⟩
  · rw [List.length_drop, hperm.length_eq]
  · rw [hsplit]; exact hperm
  · intro d hd k hk
    have hpw : List.Pairwise newerFirst s := hsorted
    rw [← hsplit] at hpw
    have hrel : newerFirst k d := (List.pairwise_append.mp hpw).2.2 k hk d hd
    have hnodup : (s.map Prod.snd).Nodup := ((hperm.map Prod.snd).nodup_iff).mpr hdist
    rw [← hsplit, List.map_append] at hnodup
    have hdisj := (List.nodup_append.mp hnodup).2.2
    have hne : d.2 ≠ k.2 := by
      intro he
      exact hdisj (List.mem_map_of_mem Prod.snd hk)
        (he ▸ List.mem_map_of_mem Prod.snd hd)
    exact lt_of_le_of_ne hrel hne


/-- C9 (witness): pruning with `keep = 2` over the five directories removes
exactly `5 - 2 = 3` of them, and each removed one is older than each kept
one. -/
theorem C9_prune_old_witness :
    (cleanupTempRepos 2 c9dirs).1 = c9dirs.length - 2 ∧
    (∀ d ∈ (cleanupTempRepos 2 c9dirs).2, ∀ k ∈ keptRepos 2 c9dirs, d.2 < k.2) :=
  ⟨(C9_prune_old 2 c9dirs (by decide)).1, (C9_prune_old 2 c9dirs (by decide)).2.2⟩

/-! ## C8: token embedding and the path round-trip -/

/-- Helper: `takeWhile` passes over a block whose elements all satisfy the
predicate. -/
theorem takeWhile_append_all (q : Char → Bool) (l : List Char) :
    ∀ (r : List Char), (∀ c ∈ l, q c = true) →
      (l ++ r).takeWhile q = l ++ r.takeWhile q := by
  induction l with
  | nil => intro r _; rfl
  | cons c l ih =>
    intro r h
    simp only [List.cons_append, List.takeWhile_cons, h c (List.mem_cons_self c l),
      if_true]
    rw [ih r (fun x hx => h x (List.mem_cons_of_mem c hx))]

/-- Helper: `dropWhile` skips a block whose elements all satisfy the
predicate. -/
theorem dropWhile_append_all (q : Char → Bool) (l : List Char) :
    ∀ (r : List Char), (∀ c ∈ l, q c = true) →
      (l ++ r).dropWhile q = r.dropWhile q := by
  induction l with
  | nil => intro r _; rfl
  | cons c l ih =>
    intro r h
    simp only [List.cons_append, List.dropWhile_cons, h c (List.mem_cons_self c l)]
    exact ih r (fun x hx => h x (List.mem_cons_of_mem c hx))

/-- Helper: a character other than a colon is scanned over and accumulated by
the splitter. -/
theorem splitSchemeAux_cons_ne (c : Char) (h : c ≠ ':') (acc rest : List Char) :
    splitSchemeAux acc (c :: rest) = splitSchemeAux (c :: acc) rest := by
  rw [splitSchemeAux.eq_def]
  split
  · rename_i heq; cases heq
  · injections; simp_all
  · injections; subst_vars; rfl

/-- Helper: the splitter scans over a colon-free block accumulating it. -/
theorem splitSchemeAux_no_colon (l : List Char) :
    ∀ (r acc : List Char), (∀ c ∈ l, c ≠ ':') →
      splitSchemeAux acc (l ++ r) = splitSchemeAux (l.reverse ++ acc) r := by
  induction l with
  | nil => intro r acc _; simp
  | cons c l ih =>
    intro r acc h
    rw [List.cons_append, splitSchemeAux_cons_ne c (h c (List.mem_cons_self c l)) acc (l ++ r)]
    rw [ih r (c :: acc) (fun x hx => h x (List.mem_cons_of_mem c hx))]
    simp

/-- Helper: a colon-free input is returned as a single piece. -/
theorem splitSchemeAux_all_no_colon (l acc : List Char) (h : ∀ c ∈ l, c ≠ ':') :
    splitSchemeAux acc l = [acc.reverse ++ l] := by
  have h0 := splitSchemeAux_no_colon l [] acc h
  rw [List.append_nil] at h0
  rw [h0]
  show [(l.reverse ++ acc).reverse] = [acc.reverse ++ l]
  simp

/-- Helper: the splitter consumes one scheme separator. -/
theorem splitSchemeAux_sep (acc X : List Char) :
    splitSchemeAux acc (':' :: '/' :: '/' :: X) = acc.reverse :: splitSchemeAux [] X := rfl

/-- Helper: splitting a URL built from a colon-free scheme part and a
colon-free remainder yields exactly the two pieces. -/
theorem pySplitScheme_build (sch X : List Char) (hsch : ∀ c ∈ sch, c ≠ ':')
    (hX : ∀ c ∈ X, c ≠ ':') :
    pySplitScheme (String.mk (sch ++ ':' :: '/' :: '/' :: X))
      = [String.mk sch, String.mk X] := by
  unfold pySplitScheme
  show (splitSchemeAux [] (sch ++ ':' :: '/' :: '/' :: X)).map (fun l => String.mk l) = _
  rw [splitSchemeAux_no_colon sch (':' :: '/' :: '/' :: X) [] hsch]
  rw [splitSchemeAux_sep, splitSchemeAux_all_no_colon X [] hX]
  simp

/-- Helper: appending strings is appending their character lists. -/
theorem stringMk_append (a b : List Char) :
    String.mk a ++ String.mk b = String.mk (a ++ b) := rfl

/-- Helper: the path component of a well-formed http(s) URL whose authority
contains no slash is everything from the first slash after the authority. -/
theorem pathOf_build (sch auth p : List Char) (hsch : ∀ c ∈ sch, c ≠ ':')
    (hauth : ∀ c ∈ auth, c ≠ ':' ∧ c ≠ '/') (hp : ∀ c ∈ p, c ≠ ':') :
    pathOf (String.mk (sch ++ ':' :: '/' :: '/' :: (auth ++ '/' :: p)))
      = String.mk ('/' :: p) := by
  have hX : ∀ c ∈ auth ++ '/' :: p, c ≠ ':' := by
    intro c hc
    rcases List.mem_append.mp hc with h | h
    · exact (hauth c h).1
    · rcases List.mem_cons.mp h with rfl | h
      · decide
      · exact hp c h
  unfold pathOf
  rw [pySplitScheme_build sch (auth ++ '/' :: p) hsch hX]
  show String.mk (((String.mk (auth ++ '/' :: p)).toList).dropWhile _) = _
  have htl : (String.mk (auth ++ '/' :: p)).toList = auth ++ '/' :: p := rfl
  rw [htl, dropWhile_append_all _ auth ('/' :: p)
    (fun c hc => decide_eq_true (hauth c hc).2)]
  rw [List.dropWhile_cons]
  simp

/-- Helper: embedding a token into a well-formed http(s) URL inserts
`token@` in front of the authority and leaves the path untouched. -/
theorem embedTokenInUrl_build (sch host p token : List Char)
    (hhttp : isHttpUrl (String.mk (sch ++ ':' :: '/' :: '/' :: (host ++ '/' :: p))) = true)
    (hsch : ∀ c ∈ sch, c ≠ ':')
    (htok0 : token ≠ [])
    (hhostc : ∀ c ∈ host, c ≠ ':')
    (hpc : ∀ c ∈ p, c ≠ ':') :
    embedTokenInUrl (String.mk (sch ++ ':' :: '/' :: '/' :: (host ++ '/' :: p)))
        (String.mk token)
      = String.mk (sch ++ ':' :: '/' :: '/' :: (token ++ '@' :: (host ++ '/' :: p))) := by
  have hX : ∀ c ∈ host ++ '/' :: p, c ≠ ':' := by
    intro c hc
    rcases List.mem_append.mp hc with h | h
    · exact hhostc c h
    · rcases List.mem_cons.mp h with rfl | h
      · decide
      · exact hpc c h
  have htne : (String.mk token != "") = true := by
    apply bne_iff_ne.mpr
    intro hcon
    apply htok0
    have h2 : (String.mk token).toList = ("" : String).toList := by rw [hcon]
    exact h2
  unfold embedTokenInUrl
  rw [htne, hhttp]
  show (match pySplitScheme (String.mk (sch ++ ':' :: '/' :: '/' :: (host ++ '/' :: p))) with
    | [s, rest] => s ++ "://" ++ String.mk token ++ "@" ++ rest
    | _ => String.mk (sch ++ ':' :: '/' :: '/' :: (host ++ '/' :: p))) = _
  rw [pySplitScheme_build sch (host ++ '/' :: p) hsch hX]
  show String.mk sch ++ "://" ++ String.mk token ++ "@" ++ String.mk (host ++ '/' :: p) = _
  have h1 : ("://" : String) = String.mk [':', '/', '/'] := rfl
  have h2 : ("@" : String) = String.mk ['@'] := rfl
  rw [h1, h2, stringMk_append, stringMk_append, stringMk_append, stringMk_append]
  show String.mk ((((sch ++ [':', '/', '/']) ++ token) ++ ['@']) ++ (host ++ '/' :: p)) = _
  congr 1
  simp

/-- Helper: stripping the userinfo of the embedded URL recovers the original
URL exactly. -/
theorem stripUserinfo_build (sch host p token : List Char)
    (hsch : ∀ c ∈ sch, c ≠ ':')
    (htokc : ∀ c ∈ token, c ≠ ':' ∧ c ≠ '/' ∧ c ≠ '@')
    (hhostc : ∀ c ∈ host, c ≠ ':' ∧ c ≠ '/' ∧ c ≠ '@')
    (hpc : ∀ c ∈ p, c ≠ ':') :
    stripUserinfo (String.mk (sch ++ ':' :: '/' :: '/' :: (token ++ '@' :: (host ++ '/' :: p))))
      = String.mk (sch ++ ':' :: '/' :: '/' :: (host ++ '/' :: p)) := by
  have hX : ∀ c ∈ token ++ '@' :: (host ++ '/' :: p), c ≠ ':' := by
    intro c hc
    rcases List.mem_append.mp hc with h | h
    · exact (htokc c h).1
    · rcases List.mem_cons.mp h with rfl | h
      · decide
      · rcases List.mem_append.mp h with h | h
        · exact (hhostc c h).1
        · rcases List.mem_cons.mp h with rfl | h
          · decide
          · exact hpc c h
  unfold stripUserinfo
  rw [pySplitScheme_build sch (token ++ '@' :: (host ++ '/' :: p)) hsch hX]
  have htl : (String.mk (token ++ '@' :: (host ++ '/' :: p))).toList
      = token ++ '@' :: (host ++ '/' :: p) := rfl
  show (if (((String.mk (token ++ '@' :: (host ++ '/' :: p))).toList).takeWhile
          (fun c => decide (c ≠ '/'))).contains '@' then
        String.mk sch ++ "://" ++ String.mk
          (((((String.mk (token ++ '@' :: (host ++ '/' :: p))).toList).takeWhile
              (fun c => decide (c ≠ '/'))).reverse.takeWhile
                (fun c => decide (c ≠ '@'))).reverse
            ++ ((String.mk (token ++ '@' :: (host ++ '/' :: p))).toList).dropWhile
              (fun c => decide (c ≠ '/')))
      else String.mk (sch ++ ':' :: '/' :: '/' :: (token ++ '@' :: (host ++ '/' :: p)))) = _
  rw [htl]
  have hauth : (token ++ '@' :: (host ++ '/' :: p)).takeWhile (fun c => decide (c ≠ '/'))
      = token ++ '@' :: host := by
    rw [takeWhile_append_all _ token ('@' :: (host ++ '/' :: p))
      (fun c hc => decide_eq_true (htokc c hc).2.1)]
    rw [List.takeWhile_cons]
    simp only [decide_eq_true_eq]
    rw [if_pos (by decide)]
    rw [takeWhile_append_all _ host ('/' :: p)
      (fun c hc => decide_eq_true (hhostc c hc).2.1)]
    rw [List.takeWhile_cons]
    simp

  have hpath : (token ++ '@' :: (host ++ '/' :: p)).dropWhile (fun c => decide (c ≠ '/'))
      = '/' :: p := by
    rw [dropWhile_append_all _ token ('@' :: (host ++ '/' :: p))
      (fun c hc => decide_eq_true (htokc c hc).2.1)]
    rw [List.dropWhile_cons]
    simp only [decide_eq_true_eq]
    rw [if_pos (by decide)]
    rw [dropWhile_append_all _ host ('/' :: p)
      (fun c hc => decide_eq_true (hhostc c hc).2.1)]
    rw [List.dropWhile_cons]
    simp
  rw [hauth, hpath]
  have hcontains : (token ++ '@' :: host).contains '@' = true := by
    have hmem : '@' ∈ token ++ '@' :: host :=
      List.mem_append_right token (List.mem_cons_self '@' host)
    simp [List.contains, List.elem_eq_mem, hmem]
  rw [hcontains, if_pos rfl]
  have hrev : (token ++ '@' :: host).reverse = host.reverse ++ '@' :: token.reverse := by
    simp
  rw [hrev]
  rw [takeWhile_append_all _ host.reverse ('@' :: token.reverse)
    (fun c hc => decide_eq_true (hhostc c (List.mem_reverse.mp hc)).2.2)]
  rw [List.takeWhile_cons]
  simp only [decide_eq_true_eq]
  rw [if_neg (by simp)]
  rw [List.append_nil, List.reverse_reverse]
  have h1 : ("://" : String) = String.mk [':', '/', '/'] := rfl
  rw [h1, stringMk_append, stringMk_append]
  congr 1
  simp

/-- C8 (counterexample): resolution embeds the token into the authority of
`https://github.com/a b` but never decodes or re-encodes the path
(repo_manager.py:330-336 only splits on `://` and re-concatenates), and the
unquote-then-quote round-trip claimed for the resulting path component fails:
`quote(unquote("/a b")) = "/a%20b" ≠ "/a b"`. -/
theorem C8_counterexample :
    embedTokenInUrl "https://github.com/a b" "T" = "https://T@github.com/a b" ∧
    pyQuote (pyUnquote (pathOf "https://github.com/a b"))
      ≠ pathOf "https://github.com/a b" := by
  constructor
  · decide
  · decide

/-- C8 (amended): for every http(s) repository URL
`sch://host/p` (exactly one `://`, colon-free host and path, non-empty token
without `:`, `/`, `@`), credential resolution embeds the token into the
authority component and passes the path component through UNCHANGED — it is
never decoded or re-encoded — so stripping the token recovers the original
URL, and in particular the original path component, exactly; the
unquote-then-quote round-trip of the original claim holds only for paths
already in canonical percent-encoded form (see the counterexample). -/
theorem C8_amended (sch token host p : List Char)
    (hsch : sch = "https".toList ∨ sch = "http".toList)
    (htok0 : token ≠ [])
    (htok : ∀ c ∈ token, c ≠ ':' ∧ c ≠ '/' ∧ c ≠ '@')
    (hhost : ∀ c ∈ host, c ≠ ':' ∧ c ≠ '/' ∧ c ≠ '@')
    (hp : ∀ c ∈ p, c ≠ ':') :
    embedTokenInUrl (String.mk (sch ++ ':' :: '/' :: '/' :: (host ++ '/' :: p)))
        (String.mk token)
      = String.mk (sch ++ ':' :: '/' :: '/' :: (token ++ '@' :: (host ++ '/' :: p))) ∧
    pathOf (embedTokenInUrl (String.mk (sch ++ ':' :: '/' :: '/' :: (host ++ '/' :: p)))
        (String.mk token))
      = pathOf (String.mk (sch ++ ':' :: '/' :: '/' :: (host ++ '/' :: p))) ∧
    stripUserinfo (embedTokenInUrl (String.mk (sch ++ ':' :: '/' :: '/' :: (host ++ '/' :: p)))
        (String.mk token))
      = String.mk (sch ++ ':' :: '/' :: '/' :: (host ++ '/' :: p)) := by
  have hschc : ∀ c ∈ sch, c ≠ ':' := by
    rcases hsch with rfl | rfl <;> decide
  have hhttp : isHttpUrl (String.mk (sch ++ ':' :: '/' :: '/' :: (host ++ '/' :: p))) = true := by
    have h5 : "https".toList = ['h', 't', 't', 'p', 's'] := by decide
    have h4 : "http".toList = ['h', 't', 't', 'p'] := by decide
    rcases hsch with rfl | rfl
    · rw [h5]; rfl
    · rw [h4]; rfl
  have hemb := embedTokenInUrl_build sch host p token hhttp hschc htok0
    (fun c hc => (hhost c hc).1) hp
  refine ⟨hemb, ?_, ?_⟩
  · rw [hemb]
    have hassoc : token ++ '@' :: (host ++ '/' :: p) = (token ++ '@' :: host) ++ '/' :: p := by
      simp
    rw [hassoc]
    have hauth2 : ∀ c ∈ token ++ '@' :: host, c ≠ ':' ∧ c ≠ '/' := by
      intro c hc
      rcases List.mem_append.mp hc with h | h
      · exact ⟨(htok c h).1, (htok c h).2.1⟩
      · rcases List.mem_cons.mp h with rfl | h
        · exact ⟨by decide, by decide⟩
        · exact ⟨(hhost c h).1, (hhost c h).2.1⟩
    rw [pathOf_build sch (token ++ '@' :: host) p hschc hauth2 hp]
    rw [pathOf_build sch host p hschc (fun c hc => ⟨(hhost c hc).1, (hhost c hc).2.1⟩) hp]
  · rw [hemb]
    exact stripUserinfo_build sch host p token hschc htok hhost hp

/-- C8 (witness for the amended theorem): for `https://h/a` with token `T`,
embedding yields `https://T@h/a`, the path component is unchanged, and
stripping the token recovers the original URL. -/
theorem C8_amended_witness :
    embedTokenInUrl (String.mk ("https".toList ++ ':' :: '/' :: '/' :: (['h'] ++ '/' :: ['a'])))
        (String.mk ['T'])
      = String.mk ("https".toList ++ ':' :: '/' :: '/' :: (['T'] ++ '@' :: (['h'] ++ '/' :: ['a']))) ∧
    pathOf (embedTokenInUrl (String.mk ("https".toList ++ ':' :: '/' :: '/' :: (['h'] ++ '/' :: ['a'])))
        (String.mk ['T']))
      = pathOf (String.mk ("https".toList ++ ':' :: '/' :: '/' :: (['h'] ++ '/' :: ['a']))) ∧
    stripUserinfo (embedTokenInUrl (String.mk ("https".toList ++ ':' :: '/' :: '/' :: (['h'] ++ '/' :: ['a'])))
        (String.mk ['T']))
      = String.mk ("https".toList ++ ':' :: '/' :: '/' :: (['h'] ++ '/' :: ['a'])) :=
  C8_amended "https".toList ['T'] ['h'] ['a'] (Or.inl rfl) (by decide) (by decide)
    (by decide) (by decide)

end FixMyDocs
